import Mathlib

/-!
# Verification of the BREDS sentence-analysis core (`breds/sentence.py`)

Shallow embedding of the module `breds/sentence.py` and proofs about it.

Modelling conventions:
* Python runtime errors (`TypeError`, `AttributeError`, `IndexError`,
  `KeyError`) are modelled with the `PyResult` monad-like type below;
  a function that cannot raise is modelled as a plain function or as an
  `Option`-returning function where a raise is possible.
* External collaborators — NLTK's `word_tokenize`, the PoS tagger, the
  `re` regular-expression engine and the NLTK English stopword list — are
  parameters of the embedded functions (they are out of scope for the
  core, which only consumes their interfaces).
* Python lists are `List`, Python `dict`s are association lists with the
  insertion/overwrite discipline of CPython dicts, Python `set`s are
  duplicate-free lists where `add` keeps the first-inserted element among
  equals, exactly as CPython's `set.add` does.
-/

/-- Python runtime errors that the embedded code can raise. -/
inductive PyErr where
  | typeError
  | attributeError
  | indexError
  | keyError
  deriving Repr, DecidableEq

/-- Result of running a piece of embedded Python code that may raise. -/
inductive PyResult (α : Type) where
  | ok (val : α)
  | error (e : PyErr)
  deriving Repr, DecidableEq

/-- Python slice `l[a:b]` (with `0 ≤ a`, `0 ≤ b`): clamps out-of-range
bounds and yields `[]` when `a ≥ b`. -/
def pySlice {α : Type} (a b : Nat) (l : List α) : List α :=
  (l.take b).drop a

/-- Python slice `l[-w:]`.  CPython semantics: for `w = 0` this is
`l[0:]`, i.e. the WHOLE list, not the empty list; for `w ≥ 1` it is the
last `min w l.length` elements. -/
def pyTakeLast {α : Type} (w : Nat) (l : List α) : List α :=
  if w = 0 then l else l.drop (l.length - w)

/-- `sentence.py` line 9: module-level list of punctuation/connector
tokens that do not signal a relationship. -/
def bad_tokens : List String :=
  [",", "(", ")", ";", "\x27\x27", "``", "\x27s", "-", "vs.", "v",
   "\x27", ":", ".", "--"]

/-- `sentence.py` line 11: `not_valid = bad_tokens + stopwords`.  The
NLTK English stopword list is an external resource and is passed in as
the parameter `stopwords`. -/
def not_valid (stopwords : List String) : List String :=
  bad_tokens ++ stopwords

/-- `sentence.py` lines 14-21, `tokenize_entity`.  The external call
`word_tokenize(entity)` has already been performed: `parts` is its
result.  `parts[-1]` on an empty list and `parts[-2]` on the
single-element list `["."]` raise `IndexError`, modelled as `none`. -/
def tokenize_entity (parts : List String) : Option (List String) :=
  match parts.getLast? with
  | none => none
  | some last =>
    if last = "." then
      match parts.dropLast.getLast? with
      | none => none
      | some prev => some (parts.dropLast.dropLast ++ [prev ++ last])
    else some parts

/-- `sentence.py` lines 24-30, `find_locations`: brute-force search for
every start index `i` with `text_tokens[i:i+len(e_parts)] == e_parts`.
`tok` is the external `word_tokenize`.  `none` propagates the
`IndexError` that `tokenize_entity` can raise. -/
def find_locations (tok : String → List String) (entity_string : String)
    (text_tokens : List String) : Option (List String × List Nat) :=
  match tokenize_entity (tok entity_string) with
  | none => none
  | some e_parts =>
    some (e_parts,
      (List.range text_tokens.length).filter
        (fun i => pySlice i (i + e_parts.length) text_tokens == e_parts))

/-- C10: `tokenize_entity` is partial exactly as claimed: it succeeds on
every tokenization with at least two tokens (merging the final two when
the last token is a standalone period), it raises on the empty
tokenization and on the single-token tokenization `["."]`. -/
theorem tokenize_entity_partiality (parts : List String)
    (h2 : 2 ≤ parts.length) :
    (tokenize_entity parts).isSome = true ∧
    tokenize_entity [] = none ∧
    tokenize_entity ["."] = none ∧
    (parts.getLast? = some "." →
      ∃ prev, parts.dropLast.getLast? = some prev ∧
        tokenize_entity parts =
          some (parts.dropLast.dropLast ++ [prev ++ "."])) := by
  have hne : parts ≠ [] := by
    intro h; subst h; simp at h2
  have hdne : parts.dropLast ≠ [] := by
    intro h
    have := congrArg List.length h
    simp [List.length_dropLast] at this
    omega
  have hlast := List.getLast?_eq_getLast_of_ne_nil hne
  have hprev := List.getLast?_eq_getLast_of_ne_nil hdne
  refine ⟨?_, rfl, rfl, ?_⟩
  · unfold tokenize_entity
    rw [hlast]
    by_cases hdot : parts.getLast hne = "."
    · rw [hdot]; simp [hprev]
    · simp [hdot]
  · intro hdot
    rw [hlast] at hdot
    have hd : parts.getLast hne = "." := by injection hdot
    refine ⟨parts.dropLast.getLast hdne, hprev, ?_⟩
    unfold tokenize_entity
    rw [hlast, hd]
    simp [hprev]

/-- Concrete instantiation of `tokenize_entity_partiality` at the
two-token entity tokenization `["Corp", "."]`. -/
theorem tokenize_entity_partiality_witness :
    (tokenize_entity ["Corp", "."]).isSome = true ∧
    tokenize_entity [] = none ∧
    tokenize_entity ["."] = none ∧
    (["Corp", "."].getLast? = some "." →
      ∃ prev, ["Corp", "."].dropLast.getLast? = some prev ∧
        tokenize_entity ["Corp", "."] =
          some (["Corp", "."].dropLast.dropLast ++ [prev ++ "."])) :=
  tokenize_entity_partiality ["Corp", "."] (by decide)

/-- `sentence.py` lines 33-59.  `EntitySimple` and `EntityLinked` share
their four data fields; `EntityLinked` additionally carries `url`.  We
merge them into one structure whose `url` field is `some _` exactly for
`EntityLinked` instances and `none` for `EntitySimple` instances (which
lack the attribute). -/
structure Entity where
  string : String
  parts : List String
  type : String
  locations : List Nat
  url : Option String
  deriving Repr, DecidableEq

/-- The `__eq__` contract of the entity class selected by the tagging
scheme (`sentence.py` lines 43-44 and 58-59).  Within one sentence all
entities are built by the same branch of `extract_entities`, so the set
of entities is homogeneous and equality is keyed on the scheme:
`EntitySimple.__eq__` compares surface string and type, while
`EntityLinked.__eq__` compares only the URL. -/
def entityEq (tag_type : String) (a b : Entity) : Bool :=
  if tag_type = "linked" then a.url == b.url
  else a.string == b.string && a.type == b.type

/-- `sentence.py` lines 62-72, class `Relationship`. -/
structure Relationship where
  sentence : String
  before : List (String × String)
  between : List (String × String)
  after : List (String × String)
  e1 : String
  e2 : String
  e1_type : String
  e2_type : String
  deriving Repr, DecidableEq

/-- `Relationship.__eq__` (`sentence.py` lines 74-80): compares `e1`,
`e2`, `before`, `between`, `after` — and neither `sentence` nor the two
type fields. -/
def relEq (r1 r2 : Relationship) : Bool :=
  r1.e1 == r2.e1 && r1.e2 == r2.e2 && r1.before == r2.before &&
    r1.between == r2.between && r1.after == r2.after

/-- `Relationship.__hash__` (`sentence.py` lines 82-84): XOR of the
hashes of `e1`, `e2`, `before`, `between`, `after`.  Python's builtin
`hash` on strings and on the window values is external; it is passed in
as the component hash functions `hs` (strings) and `hw` (windows). -/
def relHash (hs : String → Nat) (hw : List (String × String) → Nat)
    (r : Relationship) : Nat :=
  hs r.e1 ^^^ hs r.e2 ^^^ hw r.before ^^^ hw r.between ^^^ hw r.after

/-- C9: two `Relationship` records whose `e1`, `e2`, `before`,
`between`, `after` components are pairwise equal compare equal under
`__eq__` and hash identically under `__hash__`, whatever their
`sentence` texts or argument types are (those fields enter neither
function). -/
theorem relationship_eq_hash_ignore_sentence
    (hs : String → Nat) (hw : List (String × String) → Nat)
    (r1 r2 : Relationship)
    (he1 : r1.e1 = r2.e1) (he2 : r1.e2 = r2.e2)
    (hb : r1.before = r2.before) (hm : r1.between = r2.between)
    (ha : r1.after = r2.after) :
    relEq r1 r2 = true ∧ relHash hs hw r1 = relHash hs hw r2 := by
  constructor
  · simp [relEq, he1, he2, hb, hm, ha]
  · simp [relHash, he1, he2, hb, hm, ha]

/-- Concrete instantiation of `relationship_eq_hash_ignore_sentence`:
two records with different `sentence` texts and different argument
types but identical identity components are equal and hash alike. -/
theorem relationship_eq_hash_ignore_sentence_witness :
    relEq
      ⟨"Google bought YouTube", [("x", "NN")], [("bought", "VBD")], [],
        "Google", "YouTube", "ORG", "ORG"⟩
      ⟨"Other text entirely", [("x", "NN")], [("bought", "VBD")], [],
        "Google", "YouTube", "LOC", "PER"⟩ = true ∧
    relHash (fun s => s.length) (fun w => w.length)
      ⟨"Google bought YouTube", [("x", "NN")], [("bought", "VBD")], [],
        "Google", "YouTube", "ORG", "ORG"⟩ =
    relHash (fun s => s.length) (fun w => w.length)
      ⟨"Other text entirely", [("x", "NN")], [("bought", "VBD")], [],
        "Google", "YouTube", "LOC", "PER"⟩ :=
  relationship_eq_hash_ignore_sentence (fun s => s.length)
    (fun w => w.length) _ _ rfl rfl rfl rfl rfl

/-- The configuration object consumed by `Sentence.__init__`
(`sentence.py` lines 103-112 and 136-139). -/
structure Config where
  tag_type : String
  regex_simple : String
  regex_linked : String
  regex_clean_simple : String
  regex_clean_linked : String
  deriving Repr, DecidableEq

/-- Per-sentence state set up by `Sentence.__init__` (`sentence.py`
lines 89-99): expected argument types, distance bounds and window size,
plus the configuration. -/
structure Ctx where
  config : Config
  e1_type : String
  e2_type : String
  max_tokens : Nat
  min_tokens : Nat
  window_size : Nat
  deriving Repr, DecidableEq

/-- `Sentence.add_relationship` (`sentence.py` lines 195-220).  `sw` is
the external stopword list, `tagged_text` the memoized PoS tagging of
`text_tokens`.  Returns `some r` when a record is appended to
`self.relationships` and `none` when the candidate is dropped by the
between-context validity filter (or no branch of the `if`/`elif` on the
tag type applies, in which case the source appends nothing). -/
def add_relationship (ctx : Ctx) (sw : List String)
    (tagged_text : List (String × String)) (sentence : String)
    (text_tokens : List String) (e1_index e2_index : Nat)
    (e1 e2 : Entity) : Option Relationship :=
  let before := pyTakeLast ctx.window_size (tagged_text.take e1_index)
  let between := pySlice (e1_index + e1.parts.length) e2_index tagged_text
  let after := (tagged_text.drop (e2_index + e2.parts.length)).take
    ctx.window_size
  if (pySlice (e1_index + e1.parts.length) e2_index text_tokens).all
      (fun x => (not_valid sw).contains x) then
    none
  else if ctx.config.tag_type = "simple" then
    some ⟨sentence, before, between, after, e1.string, e2.string,
      e1.type, e2.type⟩
  else if ctx.config.tag_type = "linked" then
    match e1.url, e2.url with
    | some u1, some u2 =>
      some ⟨sentence, before, between, after, u1, u2, e1.type, e2.type⟩
    | _, _ => none
  else none

/-- C5: whenever `add_relationship` constructs a record, the raw tokens
of `text_tokens` strictly between the end of `e1`'s span and the start
of `e2`'s span are not all members of the not-valid set (stopwords plus
the fixed punctuation/connector list): such candidates are filtered out
before construction. -/
theorem add_relationship_between_not_all_invalid (ctx : Ctx)
    (sw : List String) (tagged_text : List (String × String))
    (sentence : String) (text_tokens : List String)
    (e1_index e2_index : Nat) (e1 e2 : Entity) (r : Relationship)
    (h : add_relationship ctx sw tagged_text sentence text_tokens
      e1_index e2_index e1 e2 = some r) :
    (pySlice (e1_index + e1.parts.length) e2_index text_tokens).all
      (fun x => (not_valid sw).contains x) = false := by
  unfold add_relationship at h
  by_cases hall : (pySlice (e1_index + e1.parts.length) e2_index
      text_tokens).all (fun x => (not_valid sw).contains x) = true
  · rw [if_pos hall] at h
    exact absurd h (by simp)
  · simpa using hall

/-- Concrete instantiation of
`add_relationship_between_not_all_invalid`: the between-context
`["acquired"]` is not swallowed by the filter. -/
theorem add_relationship_between_not_all_invalid_witness :
    (pySlice (0 + 1) 2 ["Google", "acquired", "YouTube"]).all
      (fun x => (not_valid []).contains x) = false :=
  add_relationship_between_not_all_invalid
    ⟨⟨"simple", "", "", "", ""⟩, "ORG", "ORG", 6, 1, 3⟩ []
    [("Google", "NNP"), ("acquired", "VBD"), ("YouTube", "NNP")]
    "Google acquired YouTube" ["Google", "acquired", "YouTube"] 0 2
    ⟨"Google", ["Google"], "ORG", [0], none⟩
    ⟨"YouTube", ["YouTube"], "ORG", [2], none⟩
    ⟨"Google acquired YouTube",
      [], [("acquired", "VBD")], [], "Google", "YouTube", "ORG", "ORG"⟩
    (by decide)

/-- Inversion for `add_relationship`: whichever branch constructed the
record, its `before` and `after` fields are the slices computed on
lines 196-200 of `sentence.py`. -/
theorem add_relationship_some_windows (ctx : Ctx) (sw : List String)
    (tagged_text : List (String × String)) (sentence : String)
    (text_tokens : List String) (e1_index e2_index : Nat)
    (e1 e2 : Entity) (r : Relationship)
    (h : add_relationship ctx sw tagged_text sentence text_tokens
      e1_index e2_index e1 e2 = some r) :
    r.before = pyTakeLast ctx.window_size (tagged_text.take e1_index) ∧
    r.after = (tagged_text.drop (e2_index + e2.parts.length)).take
      ctx.window_size := by
  unfold add_relationship at h
  split at h
  · exact absurd h (by simp)
  · split at h
    · cases h; exact ⟨rfl, rfl⟩
    · split at h
      · split at h
        · cases h; exact ⟨rfl, rfl⟩
        · exact absurd h (by simp)
      · exact absurd h (by simp)

/-- Length of the Python slice `l[-w:]` for `w ≥ 1`. -/
theorem pyTakeLast_length {α : Type} (w : Nat) (l : List α)
    (hw : w ≠ 0) : (pyTakeLast w l).length = l.length - (l.length - w) := by
  simp [pyTakeLast, hw]

/-- C3 (amended): for every record constructed by `add_relationship`
with a POSITIVE `window_size`, the `before` and the `after` window each
hold at most `window_size` tagged tokens, and fewer only when the
sentence boundary is nearer than `window_size`.  (For `window_size = 0`
the claim fails: see the counterexample below — `before[-0:]` is the
whole prefix in Python.) -/
theorem add_relationship_window_bounds (ctx : Ctx) (sw : List String)
    (tagged_text : List (String × String)) (sentence : String)
    (text_tokens : List String) (e1_index e2_index : Nat)
    (e1 e2 : Entity) (r : Relationship)
    (hw : 1 ≤ ctx.window_size)
    (hk : e1_index ≤ tagged_text.length)
    (h : add_relationship ctx sw tagged_text sentence text_tokens
      e1_index e2_index e1 e2 = some r) :
    (r.before.length ≤ ctx.window_size ∧
      (r.before.length < ctx.window_size → e1_index < ctx.window_size)) ∧
    (r.after.length ≤ ctx.window_size ∧
      (r.after.length < ctx.window_size →
        tagged_text.length - (e2_index + e2.parts.length) <
          ctx.window_size)) := by
  obtain ⟨hb, ha⟩ := add_relationship_some_windows ctx sw tagged_text
    sentence text_tokens e1_index e2_index e1 e2 r h
  have hwne : ctx.window_size ≠ 0 := by omega
  have hblen : r.before.length =
      (tagged_text.take e1_index).length -
        ((tagged_text.take e1_index).length - ctx.window_size) := by
    rw [hb]; exact pyTakeLast_length _ _ hwne
  have htl : (tagged_text.take e1_index).length = e1_index := by
    simp [List.length_take]; omega
  have halen : r.after.length =
      min ctx.window_size (tagged_text.length -
        (e2_index + e2.parts.length)) := by
    rw [ha]; simp [List.length_take, List.length_drop]
  rw [htl] at hblen
  constructor
  · constructor
    · omega
    · intro hlt; omega
  · constructor
    · omega
    · intro hlt; omega

/-- Concrete instantiation of `add_relationship_window_bounds` at
`window_size = 3`. -/
theorem add_relationship_window_bounds_witness :
    ((Relationship.mk "Google acquired YouTube" [] [("acquired", "VBD")]
        [] "Google" "YouTube" "ORG" "ORG").before.length ≤ 3 ∧
      ((Relationship.mk "Google acquired YouTube" [] [("acquired", "VBD")]
        [] "Google" "YouTube" "ORG" "ORG").before.length < 3 → 0 < 3)) ∧
    ((Relationship.mk "Google acquired YouTube" [] [("acquired", "VBD")]
        [] "Google" "YouTube" "ORG" "ORG").after.length ≤ 3 ∧
      ((Relationship.mk "Google acquired YouTube" [] [("acquired", "VBD")]
        [] "Google" "YouTube" "ORG" "ORG").after.length < 3 →
        ([("Google", "NNP"), ("acquired", "VBD"), ("YouTube", "NNP")] :
          List (String × String)).length - (2 + 1) < 3)) :=
  add_relationship_window_bounds
    ⟨⟨"simple", "", "", "", ""⟩, "ORG", "ORG", 6, 1, 3⟩ []
    [("Google", "NNP"), ("acquired", "VBD"), ("YouTube", "NNP")]
    "Google acquired YouTube" ["Google", "acquired", "YouTube"] 0 2
    ⟨"Google", ["Google"], "ORG", [0], none⟩
    ⟨"YouTube", ["YouTube"], "ORG", [2], none⟩
    ⟨"Google acquired YouTube",
      [], [("acquired", "VBD")], [], "Google", "YouTube", "ORG", "ORG"⟩
    (by decide) (by decide) (by decide)

/-- C3 counterexample: with the perfectly legal configured value
`window_size = 0` (the spec allows every non-negative integer), a
record IS emitted whose `before` window holds 2 > 0 tagged tokens —
Python's `before[-0:]` is `before[0:]`, the entire prefix, so the
"never exceed windowSize" bound fails at `windowSize = 0`. -/
theorem add_relationship_window_zero_counterexample :
    (add_relationship ⟨⟨"simple", "", "", "", ""⟩, "ORG", "ORG", 6, 1, 0⟩
      []
      [("Alpha", "NNP"), ("Beta", "NNP"), ("Google", "NNP"),
        ("acquired", "VBD"), ("YouTube", "NNP")]
      "Alpha Beta Google acquired YouTube"
      ["Alpha", "Beta", "Google", "acquired", "YouTube"] 2 4
      ⟨"Google", ["Google"], "ORG", [2], none⟩
      ⟨"YouTube", ["YouTube"], "ORG", [4], none⟩).map
      (fun r => r.before.length) = some 2 := by decide

/-- Python `dict.get(k)` on a string-keyed dict modelled as an
association list: `none` when the key is absent. -/
def dictGet {α : Type} (d : List (String × α)) (k : String) : Option α :=
  (d.find? (fun p => p.1 == k)).map (fun p => p.2)

/-- Lookup `locations[k]` on the index dict (`sentence.py` lines
173-174); `none` corresponds to a `KeyError`. -/
def lookupIdx (d : List (Nat × Entity)) (k : Nat) : Option Entity :=
  (d.find? (fun p => p.1 == k)).map (fun p => p.2)

/-- Insertion into a sorted list of keys; `sortKeys` below models
Python's builtin `sorted` applied to the dict keys
(`sentence.py` line 168). -/
def insertSorted (x : Nat) : List Nat → List Nat
  | [] => [x]
  | y :: ys => if x ≤ y then x :: y :: ys else y :: insertSorted x ys

/-- `sorted(locations)`: the dict keys in ascending order. -/
def sortKeys (l : List Nat) : List Nat :=
  l.foldr insertSorted []

/-- The pairs `(sorted_keys[i], sorted_keys[i+1])` iterated by the loop
`for i in range(len(sorted_keys)-1)` (`sentence.py` lines 169-171). -/
def consecutivePairs (l : List Nat) : List (Nat × Nat) :=
  l.zip l.tail

/-- The acceptance test of `find_pair_entities` (`sentence.py` lines
172-183): the candidate pair survives the distance/type rejection of
line 175 and the same-referent rejections of lines 180-183. -/
def pairAccepted (ctx : Ctx) (e1 e2 : Entity) (e1_index e2_index : Nat) :
    Bool :=
  let distance : Int := (e2_index : Int) - (e1_index : Int)
  if (ctx.max_tokens : Int) < distance ∨ distance < (ctx.min_tokens : Int)
      ∨ e1.type ≠ ctx.e1_type ∨ e2.type ≠ ctx.e2_type then
    false
  else if ctx.config.tag_type = "simple" ∧ e1.string = e2.string then
    false
  else if ctx.config.tag_type = "linked" ∧ e1.url = e2.url then
    false
  else true

/-- The pairs of adjacent index keys that `find_pair_entities` accepts
and forwards to context-window construction (the PairSelector of the
spec). -/
def acceptedPairs (ctx : Ctx) (locations : List (Nat × Entity)) :
    List (Nat × Nat) :=
  (consecutivePairs (sortKeys (locations.map (fun p => p.1)))).filter
    (fun q =>
      match lookupIdx locations q.1, lookupIdx locations q.2 with
      | some e1, some e2 => pairAccepted ctx e1 e2 q.1 q.2
      | _, _ => false)

/-- Loop body of `Sentence.find_pair_entities` (`sentence.py` lines
169-193).  For an accepted pair the source memoizes the PoS tagging
(lines 186-191) and then, on line 193, evaluates `self.sentence` as the
first argument of `self.add_relationship(...)` — but `__init__` never
assigns a `sentence` attribute, so this raises `AttributeError` before
`add_relationship` can run. -/
def fpeLoop (ctx : Ctx) (tagger : List String → List (String × String))
    (locations : List (Nat × Entity)) (text_tokens : List String) :
    List (Nat × Nat) → Option (List (String × String)) →
    List Relationship → PyResult (List Relationship)
  | [], _, rels => .ok rels
  | (e1_index, e2_index) :: rest, tagged_text, rels =>
    match lookupIdx locations e1_index, lookupIdx locations e2_index with
    | some e1, some e2 =>
      if pairAccepted ctx e1 e2 e1_index e2_index then
        -- lines 186-191 would set tagged_text := some (tagger text_tokens);
        -- line 193 then evaluates `self.sentence`: AttributeError.
        .error .attributeError
      else
        fpeLoop ctx tagger locations text_tokens rest tagged_text rels
    | _, _ => .error .keyError

/-- `Sentence.find_pair_entities` (`sentence.py` lines 163-193). -/
def find_pair_entities (ctx : Ctx)
    (tagger : List String → List (String × String))
    (locations : List (Nat × Entity)) (text_tokens : List String) :
    PyResult (List Relationship) :=
  fpeLoop ctx tagger locations text_tokens
    (consecutivePairs (sortKeys (locations.map (fun p => p.1)))) none []

/-- Membership in `l.zip l.tail` pins two adjacent positions of `l`. -/
theorem mem_zip_tail {a b : Nat} : ∀ (l : List Nat),
    (a, b) ∈ l.zip l.tail →
    ∃ i, l[i]? = some a ∧ l[i + 1]? = some b := by
  intro l
  induction l with
  | nil => intro h; simp at h
  | cons x xs ih =>
    intro h
    cases xs with
    | nil => simp at h
    | cons y ys =>
      simp only [List.tail_cons, List.zip_cons_cons, List.mem_cons] at h
      rcases h with h | h
      · exact ⟨0, by simp [Prod.ext_iff] at h; simp [h.1, h.2]⟩
      · obtain ⟨i, h1, h2⟩ := ih (by simpa [List.tail_cons] using h)
        exact ⟨i + 1, by simpa using h1, by simpa using h2⟩

/-- C7: every pair accepted by the pair selector consists of two
ADJACENT keys of the ascending key ordering, and its start-index
difference lies between `min_tokens` and `max_tokens` inclusive. -/
theorem acceptedPairs_distance_adjacent (ctx : Ctx)
    (locations : List (Nat × Entity)) (k1 k2 : Nat)
    (h : (k1, k2) ∈ acceptedPairs ctx locations) :
    ((ctx.min_tokens : Int) ≤ (k2 : Int) - (k1 : Int) ∧
      (k2 : Int) - (k1 : Int) ≤ (ctx.max_tokens : Int)) ∧
    ∃ i, (sortKeys (locations.map (fun p => p.1)))[i]? = some k1 ∧
      (sortKeys (locations.map (fun p => p.1)))[i + 1]? = some k2 := by
  rw [acceptedPairs, List.mem_filter] at h
  obtain ⟨hmem, hfil⟩ := h
  refine ⟨?_, mem_zip_tail _ hmem⟩
  simp only at hfil
  cases he1 : lookupIdx locations k1 with
  | none => rw [he1] at hfil; simp at hfil
  | some e1 =>
    cases he2 : lookupIdx locations k2 with
    | none => rw [he1, he2] at hfil; simp at hfil
    | some e2 =>
      rw [he1, he2] at hfil
      simp only [pairAccepted] at hfil
      split at hfil
      next => exact absurd hfil (by simp)
      next hc1 =>
        push_neg at hc1
        exact ⟨hc1.2.1, hc1.1⟩

/-- Concrete instantiation of `acceptedPairs_distance_adjacent` on a
two-entity index. -/
theorem acceptedPairs_distance_adjacent_witness :
    ((1 : Int) ≤ (2 : Int) - (0 : Int) ∧
      (2 : Int) - (0 : Int) ≤ (6 : Int)) ∧
    ∃ i, (sortKeys [0, 2])[i]? = some 0 ∧
      (sortKeys [0, 2])[i + 1]? = some 2 :=
  acceptedPairs_distance_adjacent
    ⟨⟨"simple", "", "", "", ""⟩, "ORG", "ORG", 6, 1, 3⟩
    [(0, ⟨"Google", ["Google"], "ORG", [0], none⟩),
     (2, ⟨"YouTube", ["YouTube"], "ORG", [2], none⟩)] 0 2 (by decide)

/-- C6: the two arguments of every accepted pair are distinct under the
active identity rule — distinct (surface string, type) under plain
tagging (the selector already rejects equal surface strings alone) and
distinct URLs under linked tagging. -/
theorem acceptedPairs_distinct_args (ctx : Ctx)
    (locations : List (Nat × Entity)) (k1 k2 : Nat) (e1 e2 : Entity)
    (h : (k1, k2) ∈ acceptedPairs ctx locations)
    (h1 : lookupIdx locations k1 = some e1)
    (h2 : lookupIdx locations k2 = some e2) :
    (ctx.config.tag_type = "simple" →
      ¬(e1.string = e2.string ∧ e1.type = e2.type)) ∧
    (ctx.config.tag_type = "linked" → e1.url ≠ e2.url) := by
  rw [acceptedPairs, List.mem_filter] at h
  obtain ⟨hmem, hfil⟩ := h
  simp only at hfil
  rw [h1, h2] at hfil
  simp only [pairAccepted] at hfil
  split at hfil
  next => exact absurd hfil (by simp)
  next hc1 =>
    split at hfil
    next => exact absurd hfil (by simp)
    next hc2 =>
      split at hfil
      next => exact absurd hfil (by simp)
      next hc3 =>
        constructor
        · intro hs hconj
          exact hc2 ⟨hs, hconj.1⟩
        · intro hl hu
          exact hc3 ⟨hl, hu⟩

/-- Concrete instantiation of `acceptedPairs_distinct_args` under plain
tagging. -/
theorem acceptedPairs_distinct_args_witness :
    ((Config.mk "simple" "" "" "" "").tag_type = "simple" →
      ¬((Entity.mk "Google" ["Google"] "ORG" [0] none).string =
          (Entity.mk "YouTube" ["YouTube"] "ORG" [2] none).string ∧
        (Entity.mk "Google" ["Google"] "ORG" [0] none).type =
          (Entity.mk "YouTube" ["YouTube"] "ORG" [2] none).type)) ∧
    ((Config.mk "simple" "" "" "" "").tag_type = "linked" →
      (Entity.mk "Google" ["Google"] "ORG" [0] none).url ≠
        (Entity.mk "YouTube" ["YouTube"] "ORG" [2] none).url) :=
  acceptedPairs_distinct_args
    ⟨⟨"simple", "", "", "", ""⟩, "ORG", "ORG", 6, 1, 3⟩
    [(0, ⟨"Google", ["Google"], "ORG", [0], none⟩),
     (2, ⟨"YouTube", ["YouTube"], "ORG", [2], none⟩)] 0 2 _ _
    (by decide) (by decide) (by decide)

/-- C1 (code bug): on the spec's own example — two `ORG` entities two
tokens apart, a contentful between-context, legal distance bounds — the
pair IS accepted and `add_relationship` WOULD construct a record, yet
`find_pair_entities` raises `AttributeError` instead of appending it:
line 193 of `sentence.py` reads `self.sentence`, an attribute that
`__init__` (which only receives `sentence` as a local parameter) never
assigns. -/
theorem find_pair_entities_attribute_error :
    find_pair_entities
      ⟨⟨"simple", "", "", "", ""⟩, "ORG", "ORG", 6, 1, 3⟩
      (fun ts => ts.map (fun t => (t, "NN")))
      [(0, ⟨"Google", ["Google"], "ORG", [0], none⟩),
       (2, ⟨"YouTube", ["YouTube"], "ORG", [2], none⟩)]
      ["Google", "acquired", "YouTube", "in", "2006", "."] =
      .error .attributeError ∧
    pairAccepted ⟨⟨"simple", "", "", "", ""⟩, "ORG", "ORG", 6, 1, 3⟩
      ⟨"Google", ["Google"], "ORG", [0], none⟩
      ⟨"YouTube", ["YouTube"], "ORG", [2], none⟩ 0 2 = true ∧
    (add_relationship ⟨⟨"simple", "", "", "", ""⟩, "ORG", "ORG", 6, 1, 3⟩
      []
      ((["Google", "acquired", "YouTube", "in", "2006", "."]).map
        (fun t => (t, "NN")))
      "Google acquired YouTube in 2006 ."
      ["Google", "acquired", "YouTube", "in", "2006", "."] 0 2
      ⟨"Google", ["Google"], "ORG", [0], none⟩
      ⟨"YouTube", ["YouTube"], "ORG", [2], none⟩).isSome = true := by
  refine ⟨?_, by decide, by decide⟩
  decide

/-- The interface of Python's `re` module as consumed by
`sentence.py`: `finditer pat s` returns the matched substrings (the
`.group()` of each match object, in order), `findall pat s` the first
capture group of each match, `sub pat repl s` the substitution result.
The regex engine itself is an external collaborator. -/
structure ReModule where
  finditer : String → String → List String
  findall : String → String → List String
  sub : String → String → String → String

/-- `sentence.py` line 134. -/
def type_regex : String := "<([A-Z]+)"

/-- `sentence.py` line 135. -/
def url_regex : String := "url=([^>]+)"

/-- `sentence.py` lines 136-137: the surface-string extraction patterns
keyed by tagging scheme. -/
def string_regexs : List (String × String) :=
  [("simple", "<[A-Z]+>([^<]+)</[A-Z]+>"),
   ("linked", "<[A-Z]+ url=[^>]+>([^<]+)</[A-Z]+>")]

/-- The body of the `for x in range(0, len(entities))` loop of
`Sentence.extract_entities` (`sentence.py` lines 140-152) for one match
string `entity`.  `re.findall(...)[0]` on an empty match list raises
`IndexError`; `re.findall(None, ...)` (absent tag type) raises
`TypeError`; `find_locations` can raise `IndexError` through
`tokenize_entity`.  `ok none` is the fall-through when the tag type is
neither `"simple"` nor `"linked"` and nothing is added (unreachable,
since the `string_regexs` lookup already failed). -/
def parseOne (ctx : Ctx) (re : ReModule) (tok : String → List String)
    (entity : String) (text_tokens : List String) :
    PyResult (Option Entity) :=
  match (re.findall type_regex entity).head? with
  | none => .error .indexError
  | some e_type =>
    match dictGet string_regexs ctx.config.tag_type with
    | none => .error .typeError
    | some string_regex =>
      match (re.findall string_regex entity).head? with
      | none => .error .indexError
      | some e_string =>
        match find_locations tok e_string text_tokens with
        | none => .error .indexError
        | some (e_parts, locations) =>
          if ctx.config.tag_type = "simple" then
            .ok (some ⟨e_string, e_parts, e_type, locations, none⟩)
          else if ctx.config.tag_type = "linked" then
            match (re.findall url_regex entity).head? with
            | none => .error .indexError
            | some e_url =>
              .ok (some ⟨e_string, e_parts, e_type, locations, some e_url⟩)
          else .ok none

/-- CPython `set.add` under the entity `__eq__` of the active scheme:
if an equal element is already present the set is unchanged (the
FIRST-inserted representative survives), otherwise the element is
added. -/
def setAdd (tag_type : String) (s : List Entity) (e : Entity) :
    List Entity :=
  if s.any (fun x => entityEq tag_type x e) then s else s ++ [e]

/-- The accumulation loop of `Sentence.extract_entities`
(`sentence.py` lines 140-152): parse each match and add the resulting
entity to the `entities_info` set. -/
def extractLoop (ctx : Ctx) (re : ReModule) (tok : String → List String)
    (text_tokens : List String) :
    List String → List Entity → PyResult (List Entity)
  | [], acc => .ok acc
  | entity :: rest, acc =>
    match parseOne ctx re tok entity text_tokens with
    | .error e => .error e
    | .ok none => extractLoop ctx re tok text_tokens rest acc
    | .ok (some e) =>
      extractLoop ctx re tok text_tokens rest (setAdd ctx.config.tag_type acc e)

/-- CPython dict assignment `d[k] = v`: replaces the value in place if
the key exists (keeping its position), appends otherwise. -/
def dictSet (d : List (Nat × Entity)) (k : Nat) (v : Entity) :
    List (Nat × Entity) :=
  if d.any (fun p => p.1 == k) then
    d.map (fun p => if p.1 == k then (k, v) else p)
  else d ++ [(k, v)]

/-- Inner loop of the hash-table build (`sentence.py` lines 157-160):
`for start in e.locations: locations[start] = e`. -/
def addEntity (d : List (Nat × Entity)) (e : Entity) :
    List (Nat × Entity) :=
  e.locations.foldl (fun d' k => dictSet d' k e) d

/-- The hash table `locations` built by `Sentence.extract_entities`
(`sentence.py` lines 154-161): start index ↦ owning entity. -/
def buildIndex (info : List Entity) : List (Nat × Entity) :=
  info.foldl addEntity []

/-- `Sentence.extract_entities` (`sentence.py` lines 129-161): parse
the matches, deduplicate through the set, build the index. -/
def extract_entities (ctx : Ctx) (re : ReModule)
    (tok : String → List String) (entities : List String)
    (text_tokens : List String) : PyResult (List (Nat × Entity)) :=
  match extractLoop ctx re tok text_tokens entities [] with
  | .error e => .error e
  | .ok info => .ok (buildIndex info)

/-- C4 counterexample: under linked tagging, two parses with the SAME
URL (hence equal under `EntityLinked.__eq__`) but different surface
strings occupy different token positions; `set.add` keeps only the
first parse, so the second parse's occurrence (start index 2, found by
the locator) has NO key in the built index — the occurrence sets are
discarded, not merged. -/
theorem extract_entities_linked_merge_counterexample :
    extract_entities
      ⟨⟨"linked", "", "", "", ""⟩, "T", "T", 6, 1, 3⟩
      ⟨fun _ _ => [],
       fun pat text =>
         if pat = type_regex then ["T"]
         else if pat = url_regex then ["u"]
         else if text = "<T url=u>A</T>" then ["A"] else ["B"],
       fun _ _ s => s⟩
      (fun s => [s])
      ["<T url=u>A</T>", "<T url=u>B</T>"] ["A", "x", "B"] =
      .ok [(0, ⟨"A", ["A"], "T", [0], some "u"⟩)] ∧
    parseOne ⟨⟨"linked", "", "", "", ""⟩, "T", "T", 6, 1, 3⟩
      ⟨fun _ _ => [],
       fun pat text =>
         if pat = type_regex then ["T"]
         else if pat = url_regex then ["u"]
         else if text = "<T url=u>A</T>" then ["A"] else ["B"],
       fun _ _ s => s⟩
      (fun s => [s])
      "<T url=u>B</T>" ["A", "x", "B"] =
      .ok (some ⟨"B", ["B"], "T", [2], some "u"⟩) ∧
    entityEq "linked" ⟨"A", ["A"], "T", [0], some "u"⟩
      ⟨"B", ["B"], "T", [2], some "u"⟩ = true := by
  refine ⟨?_, by decide, by decide⟩
  decide

/-- `entityEq` is reflexive for every tagging scheme. -/
theorem entityEq_refl (tag_type : String) (e : Entity) :
    entityEq tag_type e e = true := by
  unfold entityEq
  split <;> simp

/-- `setAdd` always leaves a representative equal to the added
entity in the set. -/
theorem setAdd_covers (tag_type : String) (s : List Entity) (e : Entity) :
    ∃ y ∈ setAdd tag_type s e, entityEq tag_type y e = true := by
  unfold setAdd
  by_cases h : s.any (fun x => entityEq tag_type x e) = true
  · rw [if_pos h]
    obtain ⟨y, hy, heq⟩ := List.any_eq_true.mp h
    exact ⟨y, hy, heq⟩
  · rw [if_neg h]
    exact ⟨e, List.mem_append_right _ (List.mem_singleton.mpr rfl),
      entityEq_refl tag_type e⟩

/-- Members of `setAdd` come from the set or are the added entity. -/
theorem mem_setAdd (tag_type : String) (s : List Entity) (e y : Entity)
    (h : y ∈ setAdd tag_type s e) : y ∈ s ∨ y = e := by
  unfold setAdd at h
  split at h
  · exact Or.inl h
  · rcases List.mem_append.mp h with h' | h'
    · exact Or.inl h'
    · exact Or.inr (List.mem_singleton.mp h')

/-- `extractLoop` only grows the entity set. -/
theorem extractLoop_mono (ctx : Ctx) (re : ReModule)
    (tok : String → List String) (text_tokens : List String) :
    ∀ (ents : List String) (acc s : List Entity) (x : Entity),
    extractLoop ctx re tok text_tokens ents acc = .ok s → x ∈ acc → x ∈ s := by
  intro ents
  induction ents with
  | nil =>
    intro acc s x h hx
    unfold extractLoop at h
    cases h
    exact hx
  | cons a rest ih =>
    intro acc s x h hx
    unfold extractLoop at h
    cases hp : parseOne ctx re tok a text_tokens with
    | error e => rw [hp] at h; exact absurd h (by simp)
    | ok oe =>
      rw [hp] at h
      cases oe with
      | none => exact ih acc s x h hx
      | some e =>
        refine ih _ s x h ?_
        unfold setAdd
        split
        · exact hx
        · exact List.mem_append_left _ hx

/-- If the loop returns, every successfully parsed entity of the match
list has an equal representative in the final set. -/
theorem extractLoop_covers (ctx : Ctx) (re : ReModule)
    (tok : String → List String) (text_tokens : List String) :
    ∀ (ents : List String) (acc s : List Entity) (ent : String) (e : Entity),
    extractLoop ctx re tok text_tokens ents acc = .ok s →
    ent ∈ ents →
    parseOne ctx re tok ent text_tokens = .ok (some e) →
    ∃ y ∈ s, entityEq ctx.config.tag_type y e = true := by
  intro ents
  induction ents with
  | nil =>
    intro acc s ent e _ hent
    exact absurd hent (by simp)
  | cons a rest ih =>
    intro acc s ent e h hent hp
    unfold extractLoop at h
    rcases List.mem_cons.mp hent with hq | hq
    · subst hq
      rw [hp] at h
      obtain ⟨y, hy, heq⟩ :=
        setAdd_covers ctx.config.tag_type acc e
      exact ⟨y, extractLoop_mono ctx re tok text_tokens rest _ s y h hy, heq⟩
    · cases hpa : parseOne ctx re tok a text_tokens with
      | error err => rw [hpa] at h; exact absurd h (by simp)
      | ok oe =>
        rw [hpa] at h
        cases oe with
        | none => exact ih acc s ent e h hq hp
        | some e' => exact ih _ s ent e h hq hp

/-- Every member of the final set is a successfully parsed entity of
the match list (when the accumulator starts empty, as in the source). -/
theorem extractLoop_members (ctx : Ctx) (re : ReModule)
    (tok : String → List String) (text_tokens : List String) :
    ∀ (ents : List String) (acc s : List Entity) (y : Entity),
    extractLoop ctx re tok text_tokens ents acc = .ok s →
    y ∈ s →
    y ∈ acc ∨ ∃ ent ∈ ents,
      parseOne ctx re tok ent text_tokens = .ok (some y) := by
  intro ents
  induction ents with
  | nil =>
    intro acc s y h hy
    unfold extractLoop at h
    cases h
    exact Or.inl hy
  | cons a rest ih =>
    intro acc s y h hy
    unfold extractLoop at h
    cases hpa : parseOne ctx re tok a text_tokens with
    | error err => rw [hpa] at h; exact absurd h (by simp)
    | ok oe =>
      rw [hpa] at h
      cases oe with
      | none =>
        rcases ih acc s y h hy with h' | ⟨ent, hent, hpe⟩
        · exact Or.inl h'
        · exact Or.inr ⟨ent, List.mem_cons_of_mem _ hent, hpe⟩
      | some e =>
        rcases ih _ s y h hy with h' | ⟨ent, hent, hpe⟩
        · rcases mem_setAdd ctx.config.tag_type acc e y h' with h'' | h''
          · exact Or.inl h''
          · subst h''
            exact Or.inr ⟨a, List.mem_cons_self a rest, hpa⟩
        · exact Or.inr ⟨ent, List.mem_cons_of_mem _ hent, hpe⟩

/-- The occurrence list stored in a parsed entity is exactly what
`find_locations` returns for the entity's surface string: parsing is
deterministic in the surface string. -/
theorem parseOne_find_locations (ctx : Ctx) (re : ReModule)
    (tok : String → List String) (ent : String)
    (text_tokens : List String) (e : Entity)
    (hp : parseOne ctx re tok ent text_tokens = .ok (some e)) :
    find_locations tok e.string text_tokens = some (e.parts, e.locations) := by
  unfold parseOne at hp
  split at hp
  · exact absurd hp (by simp)
  · split at hp
    · exact absurd hp (by simp)
    · split at hp
      · exact absurd hp (by simp)
      · split at hp
        · exact absurd hp (by simp)
        · rename_i e_parts locations h4
          split at hp
          · injection hp with hp'
            injection hp' with hp''
            subst hp''
            exact h4
          · split at hp
            · split at hp
              · exact absurd hp (by simp)
              · injection hp with hp'
                injection hp' with hp''
                subst hp''
                exact h4
            · injection hp with hp'
              exact absurd hp' (by simp)

/-- Replacing a value in place does not change the key sequence. -/
theorem keys_dictSet_replace (d : List (Nat × Entity)) (k : Nat)
    (v : Entity) :
    (d.map (fun p => if p.1 == k then (k, v) else p)).map (fun p => p.1) =
      d.map (fun p => p.1) := by
  rw [List.map_map]
  apply List.map_congr_left
  intro p _
  show (if p.1 == k then (k, v) else p).1 = p.1
  by_cases hb : p.1 == k
  · rw [if_pos hb]
    exact (eq_of_beq hb).symm
  · rw [if_neg hb]

/-- The assigned key is present after `d[k] = v`. -/
theorem mem_keys_dictSet_self (d : List (Nat × Entity)) (k : Nat)
    (v : Entity) : k ∈ (dictSet d k v).map (fun p => p.1) := by
  unfold dictSet
  by_cases h : d.any (fun p => p.1 == k) = true
  · rw [if_pos h, keys_dictSet_replace]
    obtain ⟨p, hp, hpk⟩ := List.any_eq_true.mp h
    exact List.mem_map.mpr ⟨p, hp, eq_of_beq hpk⟩
  · rw [if_neg h, List.map_append]
    exact List.mem_append_right _ (by simp)

/-- Existing keys survive `d[k] = v`. -/
theorem mem_keys_dictSet_mono (d : List (Nat × Entity)) (k : Nat)
    (v : Entity) (k' : Nat) (h : k' ∈ d.map (fun p => p.1)) :
    k' ∈ (dictSet d k v).map (fun p => p.1) := by
  unfold dictSet
  by_cases hb : d.any (fun p => p.1 == k) = true
  · rw [if_pos hb, keys_dictSet_replace]
    exact h
  · rw [if_neg hb, List.map_append]
    exact List.mem_append_left _ h

/-- Keys survive the whole occurrence loop of one entity. -/
theorem keys_foldl_dictSet_mono (e : Entity) :
    ∀ (ls : List Nat) (d : List (Nat × Entity)) (k' : Nat),
    k' ∈ d.map (fun p => p.1) →
    k' ∈ (ls.foldl (fun d' k => dictSet d' k e) d).map (fun p => p.1) := by
  intro ls
  induction ls with
  | nil => intro d k' h; exact h
  | cons a ls ih =>
    intro d k' h
    exact ih (dictSet d a e) k' (mem_keys_dictSet_mono d a e k' h)

/-- Every occurrence inserted by the loop ends up among the keys. -/
theorem keys_foldl_dictSet_self (e : Entity) :
    ∀ (ls : List Nat) (d : List (Nat × Entity)) (k : Nat),
    k ∈ ls →
    k ∈ (ls.foldl (fun d' k => dictSet d' k e) d).map (fun p => p.1) := by
  intro ls
  induction ls with
  | nil => intro d k h; exact absurd h (by simp)
  | cons a ls ih =>
    intro d k h
    rcases List.mem_cons.mp h with h' | h'
    · subst h'
      exact keys_foldl_dictSet_mono e ls (dictSet d k e) k
        (mem_keys_dictSet_self d k e)
    · exact ih (dictSet d a e) k h'

/-- Keys survive the outer entity loop of the index build. -/
theorem keys_buildIndex_mono :
    ∀ (info : List Entity) (d : List (Nat × Entity)) (k' : Nat),
    k' ∈ d.map (fun p => p.1) →
    k' ∈ (info.foldl addEntity d).map (fun p => p.1) := by
  intro info
  induction info with
  | nil => intro d k' h; exact h
  | cons e info ih =>
    intro d k' h
    exact ih (addEntity d e) k' (keys_foldl_dictSet_mono e e.locations d k' h)

/-- Every occurrence of every entity in the deduplicated set is a key
of the built index. -/
theorem keys_buildIndex_covers :
    ∀ (info : List Entity) (d : List (Nat × Entity)) (e : Entity) (k : Nat),
    e ∈ info → k ∈ e.locations →
    k ∈ (info.foldl addEntity d).map (fun p => p.1) := by
  intro info
  induction info with
  | nil => intro d e k h _; exact absurd h (by simp)
  | cons a info ih =>
    intro d e k he hk
    rcases List.mem_cons.mp he with h' | h'
    · subst h'
      exact keys_buildIndex_mono info (addEntity d e) k
        (keys_foldl_dictSet_self e e.locations d k hk)
    · exact ih (addEntity d a) e k h' hk

/-- C4 (amended): under PLAIN tagging the claim holds — the index built
by `extract_entities` has a key for every occurrence start-index found
for any parse, duplicates included, because plain duplicates share
their surface string and the locator is deterministic in it.  (Under
linked tagging the later duplicate's occurrences are discarded: see the
counterexample.) -/
theorem extract_entities_simple_covers_duplicates (ctx : Ctx)
    (re : ReModule) (tok : String → List String) (ents : List String)
    (text_tokens : List String) (idx : List (Nat × Entity))
    (ent : String) (e : Entity) (k : Nat)
    (htag : ctx.config.tag_type = "simple")
    (hex : extract_entities ctx re tok ents text_tokens = .ok idx)
    (hent : ent ∈ ents)
    (hp : parseOne ctx re tok ent text_tokens = .ok (some e))
    (hk : k ∈ e.locations) :
    k ∈ idx.map (fun p => p.1) := by
  unfold extract_entities at hex
  cases hloop : extractLoop ctx re tok text_tokens ents [] with
  | error err => rw [hloop] at hex; exact absurd hex (by simp)
  | ok info =>
    rw [hloop] at hex
    injection hex with hidx
    subst hidx
    obtain ⟨y, hy, heq⟩ := extractLoop_covers ctx re tok text_tokens
      ents [] info ent e hloop hent hp
    have hystr : y.string = e.string := by
      rw [htag] at heq
      unfold entityEq at heq
      rw [if_neg (by decide)] at heq
      exact eq_of_beq ((Bool.and_eq_true _ _).mp heq).1
    rcases extractLoop_members ctx re tok text_tokens ents [] info y
        hloop hy with h' | ⟨ent', _, hpy⟩
    · exact absurd h' (by simp)
    · have hly := parseOne_find_locations ctx re tok ent' text_tokens y hpy
      have hle := parseOne_find_locations ctx re tok ent text_tokens e hp
      rw [hystr, hle] at hly
      have hloc : y.locations = e.locations := by
        injection hly with h''
        exact (congrArg Prod.snd h'').symm
      exact keys_buildIndex_covers info [] y k hy (by rw [hloc]; exact hk)

/-- Concrete instantiation of
`extract_entities_simple_covers_duplicates`: the same plain entity
parsed twice keeps both of its occurrences as index keys. -/
theorem extract_entities_simple_covers_duplicates_witness :
    (0 : Nat) ∈ ([(0, Entity.mk "A" ["A"] "T" [0, 2] none),
      (2, Entity.mk "A" ["A"] "T" [0, 2] none)]).map (fun p => p.1) :=
  extract_entities_simple_covers_duplicates
    ⟨⟨"simple", "", "", "", ""⟩, "T", "T", 6, 1, 3⟩
    ⟨fun _ _ => [],
     fun pat _ => if pat = type_regex then ["T"] else ["A"],
     fun _ _ s => s⟩
    (fun s => [s])
    ["<T>A</T>", "<T>A</T>"] ["A", "x", "A"]
    [(0, ⟨"A", ["A"], "T", [0, 2], none⟩),
     (2, ⟨"A", ["A"], "T", [0, 2], none⟩)]
    "<T>A</T>" ⟨"A", ["A"], "T", [0, 2], none⟩ 0
    rfl (by decide) (by decide) (by decide) (by decide)

/-- `sentence.py` lines 103-106: the entity-match pattern dict, keyed
`"simple"` and `"linked"`. -/
def entities_regexs (config : Config) : List (String × String) :=
  [("simple", config.regex_simple), ("linked", config.regex_linked)]

/-- `sentence.py` lines 107-110: the tag-stripping pattern dict.  NOTE:
the source keys the linked pattern under `"clean"`, not `"linked"` —
this is transcribed verbatim because it is the defect behind C2:
`clean_regexs.get("linked")` returns `None`. -/
def clean_regexs (config : Config) : List (String × String) :=
  [("simple", config.regex_clean_simple),
   ("clean", config.regex_clean_linked)]

/-- `Sentence.__init__` (`sentence.py` lines 89-126): select the
patterns for the configured tag type, find the entity matches, stop
with the empty result list when fewer than two are found, otherwise
strip the tags, tokenize, extract entities and select pairs.  Returns
the final `self.relationships` list, or the error the analysis raises.
`re.finditer(None, ...)` and `re.sub(None, ...)` on a failed dict
lookup raise `TypeError`. -/
def Sentence.init (ctx : Ctx) (re : ReModule)
    (tok : String → List String)
    (tagger : List String → List (String × String)) (sentence : String) :
    PyResult (List Relationship) :=
  match dictGet (entities_regexs ctx.config) ctx.config.tag_type with
  | none => .error .typeError
  | some entities_regex =>
    let entities := re.finditer entities_regex sentence
    if entities.length < 2 then .ok []
    else
      match dictGet (clean_regexs ctx.config) ctx.config.tag_type with
      | none => .error .typeError
      | some clean_regex =>
        let sentence_no_tags := re.sub clean_regex "" sentence
        let text_tokens := tok sentence_no_tags
        match extract_entities ctx re tok entities text_tokens with
        | .error e => .error e
        | .ok locations => find_pair_entities ctx tagger locations text_tokens

/-- C2 (code bug): for a well-formed linked-tagged sentence with two
entity matches and a fully populated configuration, the analysis raises
`TypeError` instead of using the configured linked tag-stripping
pattern: `clean_regexs` keys that pattern under `"clean"`
(`sentence.py` line 109), so the lookup of `"linked"` yields `None` and
`re.sub(None, "", sentence)` fails.  The conjuncts exhibit the defect:
the stripping pattern IS present in the configuration, sits under the
wrong key, and the lookup under the tag type fails. -/
theorem sentence_init_linked_clean_regex_bug :
    Sentence.init
      ⟨⟨"linked", "<[A-Z]+>[^<]+</[A-Z]+>",
        "<[A-Z]+ url=[^>]+>[^<]+</[A-Z]+>", "</?[A-Z]+>",
        "</?[A-Z]+( url=[^>]+)?>"⟩, "T", "T", 6, 1, 3⟩
      ⟨fun _ _ => ["<T url=u>A</T>", "<T url=v>B</T>"],
       fun _ _ => [], fun _ _ s => s⟩
      (fun s => [s]) (fun ts => ts.map (fun t => (t, "NN")))
      "<T url=u>A</T> x <T url=v>B</T>" = .error .typeError ∧
    dictGet (clean_regexs ⟨"linked", "<[A-Z]+>[^<]+</[A-Z]+>",
        "<[A-Z]+ url=[^>]+>[^<]+</[A-Z]+>", "</?[A-Z]+>",
        "</?[A-Z]+( url=[^>]+)?>"⟩) "linked" = none ∧
    dictGet (clean_regexs ⟨"linked", "<[A-Z]+>[^<]+</[A-Z]+>",
        "<[A-Z]+ url=[^>]+>[^<]+</[A-Z]+>", "</?[A-Z]+>",
        "</?[A-Z]+( url=[^>]+)?>"⟩) "clean" =
      some "</?[A-Z]+( url=[^>]+)?>" := by
  refine ⟨?_, by decide, by decide⟩
  decide

/-- C8: whenever the configured scheme's entity pattern finds fewer
than two matches in the raw sentence, `Sentence.__init__` returns
normally with the empty relationship list — analysis stops right after
entity matching (in particular no tag stripping, tokenization or
pairing runs, so even the linked-scheme stripping defect cannot
surface). -/
theorem sentence_init_fewer_than_two_entities (ctx : Ctx)
    (re : ReModule) (tok : String → List String)
    (tagger : List String → List (String × String)) (sentence : String)
    (entities_regex : String)
    (hreg : dictGet (entities_regexs ctx.config) ctx.config.tag_type =
      some entities_regex)
    (hlt : (re.finditer entities_regex sentence).length < 2) :
    Sentence.init ctx re tok tagger sentence = .ok [] := by
  unfold Sentence.init
  rw [hreg]
  simp only [if_pos hlt]

/-- Concrete instantiation of `sentence_init_fewer_than_two_entities`:
a linked-tagged sentence with a single entity match yields the empty
list and no error. -/
theorem sentence_init_fewer_than_two_entities_witness :
    Sentence.init
      ⟨⟨"linked", "", "", "", ""⟩, "T", "T", 6, 1, 3⟩
      ⟨fun _ _ => ["<T url=u>A</T>"], fun _ _ => [], fun _ _ s => s⟩
      (fun s => [s]) (fun ts => ts.map (fun t => (t, "NN")))
      "<T url=u>A</T> alone" = .ok [] :=
  sentence_init_fewer_than_two_entities
    ⟨⟨"linked", "", "", "", ""⟩, "T", "T", 6, 1, 3⟩
    ⟨fun _ _ => ["<T url=u>A</T>"], fun _ _ => [], fun _ _ s => s⟩
    (fun s => [s]) (fun ts => ts.map (fun t => (t, "NN")))
    "<T url=u>A</T> alone" "" (by decide) (by decide)
